import Mathlib

/-!
Verification development for the Strava dashboard script `streamlit_app.py`.

The script is shallowly embedded below: its pure arithmetic becomes Lean
functions on `ℚ`/`ℤ`/`ℕ`, Python `datetime` subtraction becomes explicit
floor division on second counts, dictionary lookups become `Option`, and
the control flow of `main` (including `st.stop()` and uncaught exceptions)
becomes a function from explicit world inputs to a trace of events plus an
outcome.
-/

namespace StravaApp

/-! ## Date model

Python `datetime.datetime` values at second granularity within one year are
represented by a 1-based day-of-year `d` together with a second-of-day
`t < 86400`.  `datetime.datetime(y, 1, 1)` is day 1, second 0;
`datetime.datetime(y, 12, 31)` is day `daysInYear y`, second 0.
-/

/-- Proleptic-Gregorian leap year test, as used by Python `datetime`. -/
def isLeap (y : ℕ) : Bool :=
  y % 4 == 0 && (y % 100 != 0 || y % 400 == 0)

/-- Number of days in year `y`. -/
def daysInYear (y : ℕ) : ℕ :=
  if isLeap y then 366 else 365

/-- `timedelta.days` of the difference of two datetimes, each given as a
day-of-year and a second-of-day: total seconds divided by 86400 with floor
division, which is the Python floor-division semantics (`Int.fdiv`). -/
def tdDays (d1 t1 d2 t2 : ℤ) : ℤ :=
  Int.fdiv (d1 * 86400 + t1 - (d2 * 86400 + t2)) 86400

/-- Embedding of `calculate_target_km` (streamlit_app.py lines 57–65).
The current instant `datetime.datetime.now()` is `(year, day, tod)` with
`day` the 1-based day-of-year and `tod` the second-of-day.
`start_of_year` is day 1 second 0, `end_of_year` is day `daysInYear year`
second 0; `days_between = (end_of_year - start_of_year).days` and
`days_passed = (today - start_of_year).days`. -/
def calculate_target_km (year day tod : ℕ) : ℚ :=
  let target_km : ℚ := 2000
  let days_between : ℤ := tdDays (daysInYear year) 0 1 0
  let days_passed : ℤ := tdDays day tod 1 0
  target_km / (days_between : ℚ) * (days_passed : ℚ)

/-- Modelled from the spec wording for the year-to-date target formula:
`target * (days elapsed since Jan 1) / (days in the year)`, where the
days in the year are counted as the Jan 1 to Dec 31 inclusive span
(365 for a common year, 366 for a leap year).  Used only to compare the
spec formula against `calculate_target_km`. -/
def specTargetKm (year day : ℕ) : ℚ :=
  2000 * ((day : ℚ) - 1) / (daysInYear year : ℚ)

theorem daysInYear_pos (y : ℕ) : 365 ≤ daysInYear y := by
  unfold daysInYear; split <;> norm_num

theorem tdDays_eq (d t : ℕ) (ht : t < 86400) :
    tdDays d t 1 0 = (d : ℤ) - 1 := by
  unfold tdDays
  rw [Int.fdiv_eq_ediv _ (by norm_num)]
  omega

theorem days_between_eq (y : ℕ) :
    tdDays (daysInYear y) 0 1 0 = (daysInYear y : ℤ) - 1 :=
  tdDays_eq (daysInYear y) 0 (by norm_num)

/-- Closed form of `calculate_target_km`: helper shared by several proofs. -/
theorem calculate_target_eq (y d t : ℕ) (ht : t < 86400) :
    calculate_target_km y d t =
      2000 * ((d : ℚ) - 1) / ((daysInYear y : ℚ) - 1) := by
  unfold calculate_target_km
  rw [days_between_eq, tdDays_eq d t ht]
  push_cast
  ring

/-- C1, counterexample: on Jan 2 of 2025 (a 365-day year) the computed
year-to-date target does not equal the spec formula with the inclusive
day count of the year as denominator: the code divides by 364
(the day difference of Dec 31 and Jan 1), the claimed formula divides by 365. -/
theorem c1_counterexample :
    calculate_target_km 2025 2 0 ≠ specTargetKm 2025 2 := by
  have h365 : daysInYear 2025 = 365 := by decide
  rw [calculate_target_eq 2025 2 0 (by norm_num), specTargetKm, h365]
  norm_num

/-- C1, amended: the year-to-date target equals
`target * (days elapsed since Jan 1) / (daysInYear - 1)` — the denominator
is the day-difference of the Jan 1 to Dec 31 span (364 in a common year),
not the inclusive day count of the year; calendar days only, the
time-of-day `t` does not appear in the result. -/
theorem c1_target_formula (y d t : ℕ) (ht : t < 86400) :
    calculate_target_km y d t =
      2000 * ((d : ℚ) - 1) / ((daysInYear y : ℚ) - 1) :=
  calculate_target_eq y d t ht

/-- C1, witness for the amended theorem at a concrete date. -/
theorem c1_target_formula_witness :
    calculate_target_km 2025 100 3600 =
      2000 * ((100 : ℚ) - 1) / ((daysInYear 2025 : ℚ) - 1) :=
  c1_target_formula 2025 100 3600 (by norm_num)

/-- C6: for every year, the year-to-date target is 0 on Jan 1 and equals
the full annual target (2000) on Dec 31, at any time of day. -/
theorem c6_boundary (y t : ℕ) (ht : t < 86400) :
    calculate_target_km y 1 t = 0 ∧
      calculate_target_km y (daysInYear y) t = 2000 := by
  have hD := daysInYear_pos y
  have hne : ((daysInYear y : ℚ) - 1) ≠ 0 := by
    have : (365 : ℚ) ≤ (daysInYear y : ℚ) := by exact_mod_cast hD
    nlinarith
  constructor
  · rw [calculate_target_eq y 1 t ht]
    norm_num
  · rw [calculate_target_eq y (daysInYear y) t ht]
    field_simp

/-- C6, witness at year 2024, 2 a.m. -/
theorem c6_boundary_witness :
    calculate_target_km 2024 1 7200 = 0 ∧
      calculate_target_km 2024 (daysInYear 2024) 7200 = 2000 :=
  c6_boundary 2024 7200 (by norm_num)

/-! ## Activity summaries and aggregate run statistics

An activity summary is a row of `activities_df`; the fields below are the
ones the script reads.  Numeric JSON values are modelled as `ℚ`.
-/

/-- One element of the JSON array returned by `get_activities`. -/
structure Activity where
  id : ℕ
  type : String
  distance : ℚ
  moving_time : ℚ
  average_speed : ℚ
deriving DecidableEq

/-- The filter of `activities_df` to rows whose type equals Run (line 99). -/
def runsOf (acts : List Activity) : List Activity :=
  acts.filter (fun a => a.type == "Run")

/-- The sum of the distance column over the runs, divided by 1000 (line 115). -/
def running_distance_year_km (acts : List Activity) : ℚ :=
  ((runsOf acts).map Activity.distance).sum / 1000

/-- `running_activities["moving_time"].sum() / 60` (line 120). -/
def running_moving_min (acts : List Activity) : ℚ :=
  ((runsOf acts).map Activity.moving_time).sum / 60

/-- `running_activities["average_speed"].mean()` (line 121): a pandas mean
is the sum over the count, and is NaN (here `none`) on an empty frame. -/
def running_speed_mean (acts : List Activity) : Option ℚ :=
  let xs := (runsOf acts).map Activity.average_speed
  if xs.length = 0 then none else some (xs.sum / (xs.length : ℚ))

/-- `running_activities["average_speed"].mean() * 3.6` (line 121). -/
def running_avg_kmh (acts : List Activity) : Option ℚ :=
  (running_speed_mean acts).map (fun m => m * (36 / 10 : ℚ))

/-- `len(running_activities)` (line 122). -/
def running_count (acts : List Activity) : ℕ :=
  (runsOf acts).length

/-- A concrete run used in concrete evaluations. -/
def runA : Activity := ⟨101, "Run", 5000, 1800, 5 / 2⟩

/-- A second concrete run. -/
def runB : Activity := ⟨102, "Run", 10000, 3600, 7 / 2⟩

/-- A concrete non-run activity. -/
def rideC : Activity := ⟨103, "Ride", 42000, 5400, 8⟩

/-- C5: the aggregate run statistics are computed only over activities of
type "Run" (prepending a non-"Run" activity changes nothing, prepending a
"Run" contributes its converted fields), with the unit conversions
distance/1000, moving_time/60, mean speed × 3.6, and the run count; and on
the two concrete runs of 5000 m and 10000 m the aggregate distance is
15 km with count 2, moving time 90 min, and mean speed 10.8 km/h. -/
theorem c5_aggregates :
    (∀ acts a, a.type ≠ "Run" →
      running_distance_year_km (a :: acts) = running_distance_year_km acts ∧
      running_moving_min (a :: acts) = running_moving_min acts ∧
      running_avg_kmh (a :: acts) = running_avg_kmh acts ∧
      running_count (a :: acts) = running_count acts) ∧
    (∀ acts a, a.type = "Run" →
      running_distance_year_km (a :: acts) =
        a.distance / 1000 + running_distance_year_km acts ∧
      running_moving_min (a :: acts) =
        a.moving_time / 60 + running_moving_min acts ∧
      running_count (a :: acts) = running_count acts + 1) ∧
    running_distance_year_km [runA, runB] = 15 ∧
    running_count [runA, runB] = 2 ∧
    running_moving_min [runA, runB] = 90 ∧
    running_avg_kmh [runA, runB] = some (108 / 10) := by
  refine ⟨?_, ?_, ?_, ?_, ?_, ?_⟩
  · intro acts a ha
    have hb : (a.type == "Run") = false := beq_eq_false_iff_ne.mpr ha
    have hfilter : runsOf (a :: acts) = runsOf acts := by
      simp [runsOf, List.filter_cons, hb]
    constructor
    · simp [running_distance_year_km, hfilter]
    constructor
    · simp [running_moving_min, hfilter]
    constructor
    · simp [running_avg_kmh, running_speed_mean, hfilter]
    · simp [running_count, hfilter]
  · intro acts a ha
    have hb : (a.type == "Run") = true := beq_iff_eq.mpr ha
    have hfilter : runsOf (a :: acts) = a :: runsOf acts := by
      simp [runsOf, List.filter_cons, hb]
    refine ⟨?_, ?_, ?_⟩
    · simp [running_distance_year_km, hfilter, add_div]
    · simp [running_moving_min, hfilter, add_div]
    · simp [running_count, hfilter]
  · simp [running_distance_year_km, runsOf, runA, runB]
    norm_num
  · rfl
  · simp [running_moving_min, runsOf, runA, runB]
    norm_num
  · simp [running_avg_kmh, running_speed_mean, runsOf, runA, runB]
    norm_num

/-- C5, witness: the non-"Run" invariance applied to the concrete ride. -/
theorem c5_aggregates_witness :
    running_distance_year_km (rideC :: [runA, runB]) =
        running_distance_year_km [runA, runB] ∧
      running_count (rideC :: [runA, runB]) = running_count [runA, runB] :=
  ⟨(c5_aggregates.1 [runA, runB] rideC (by decide)).1,
   (c5_aggregates.1 [runA, runB] rideC (by decide)).2.2.2⟩

/-! ## Chart data and remaining-to-target (lines 133–136) -/

/-- One row of the chart `DataFrame`. -/
structure ChartRow where
  label : String
  segment : String
  kms : ℚ
deriving DecidableEq

/-- The two-row chart dataset built at lines 133–136: the actual
year-to-date kilometres and `max(0, current_target_km -
running_distance_year_km)` as the remaining target segment. -/
def chartRows (target actual : ℚ) : List ChartRow :=
  [⟨"YTD", "Actual", actual⟩, ⟨"YTD", "Target", max 0 (target - actual)⟩]

/-- The `kms` value of the second (Target) chart row. -/
def chartRemaining (target actual : ℚ) : ℚ :=
  (((chartRows target actual).map ChartRow.kms).getD 1 0)

/-- C4: the remaining-to-target value rendered in the chart equals
`max(0, target - actual)`, is never negative, is zero whenever the actual
distance reaches the target, and in particular is 0 for target 1000 and
actual 1200. -/
theorem c4_remaining (target actual : ℚ) :
    chartRemaining target actual = max 0 (target - actual) ∧
      0 ≤ chartRemaining target actual ∧
      (target ≤ actual → chartRemaining target actual = 0) ∧
      chartRemaining 1000 1200 = 0 := by
  refine ⟨rfl, le_max_left _ _, ?_, ?_⟩
  · intro h
    simp [chartRemaining, chartRows]
    linarith
  · simp [chartRemaining, chartRows]
    norm_num

/-- C4, witness: the flooring hypothesis discharged at target 1000,
actual 1200, plus nonnegativity at target 500, actual 700. -/
theorem c4_remaining_witness :
    chartRemaining 1000 1200 = 0 ∧ 0 ≤ chartRemaining 500 700 :=
  ⟨(c4_remaining 1000 1200).2.2.1 (by norm_num), (c4_remaining 500 700).2.1⟩

/-! ## Single-activity detail (lines 101, 107–112, 124–131, 146–166)

The JSON object returned by `get_activity`.  Fields read with
`activity.get` are `Option`s; the map lookup with an empty-dict default
means an absent `polyline` key inside it gives `None`.
-/

/-- The nested `map` object of an activity, holding an optional encoded
polyline string. -/
structure RouteMap where
  polyline : Option String
deriving DecidableEq

/-- The JSON object returned by `get_activity` — only the fields the
script reads. -/
structure ActivityDetail where
  name : Option String
  distance : Option ℚ
  moving_time : Option ℚ
  elapsed_time : Option ℚ
  average_speed : Option ℚ
  total_elevation_gain : Option ℚ
  map : Option RouteMap
deriving DecidableEq

/-- Lines 110–111: `avg_pace` is the optional `average_speed` field, and
`avg_kmh` is `avg_pace * 3.6` when `avg_pace` is truthy, `None` otherwise.  Python truthiness
makes both `None` and `0` take the `else` branch. -/
def avg_kmh (activity : ActivityDetail) : Option ℚ :=
  match activity.average_speed with
  | none => none
  | some v => if v = 0 then none else some (v * (36 / 10 : ℚ))

/-- Line 130: the avg-speed metric cell, formatted to two decimals when
truthy, the placeholder N/A otherwise.  The rendered cell
is `none` exactly when the placeholder string N/A is shown (again by
Python truthiness: `None` or `0`), otherwise the displayed number. -/
def avgSpeedCell (k : Option ℚ) : Option ℚ :=
  match k with
  | none => none
  | some v => if v = 0 then none else some v

/-- C7: when `average_speed` is absent or zero the km/h cell shows the
N/A placeholder (`none`), never zero and never an error; when it is
present and non-zero, the derived value is `average_speed * 3.6`. -/
theorem c7_avg_speed (activity : ActivityDetail) :
    ((activity.average_speed = none ∨ activity.average_speed = some 0) →
      avgSpeedCell (avg_kmh activity) = none) ∧
    (∀ v : ℚ, activity.average_speed = some v → v ≠ 0 →
      avg_kmh activity = some (v * (36 / 10 : ℚ)) ∧
        avgSpeedCell (avg_kmh activity) = some (v * (36 / 10 : ℚ))) := by
  constructor
  · rintro (h | h) <;> simp [avg_kmh, avgSpeedCell, h]
  · intro v hv hvne
    have h36 : v * (36 / 10 : ℚ) ≠ 0 := by
      exact mul_ne_zero hvne (by norm_num)
    refine ⟨?_, ?_⟩ <;> simp [avg_kmh, avgSpeedCell, hv, hvne, h36]

/-- A concrete activity detail with a zero average speed and no map. -/
def detailZeroSpeed : ActivityDetail :=
  ⟨some "Morning Run", some 5000, some 1800, some 1900, some 0, some 42, none⟩

/-- A concrete activity detail with a non-zero average speed. -/
def detailFast : ActivityDetail :=
  ⟨some "Tempo", some 8000, some 2400, some 2500, some (10 / 3), some 57,
    some ⟨some "abc"⟩⟩

/-- C7, witness: the zero-speed detail renders N/A, and the 10/3 m/s
detail renders 12 km/h. -/
theorem c7_avg_speed_witness :
    avgSpeedCell (avg_kmh detailZeroSpeed) = none ∧
      avg_kmh detailFast = some ((10 / 3 : ℚ) * (36 / 10 : ℚ)) :=
  ⟨(c7_avg_speed detailZeroSpeed).1 (Or.inr rfl),
   ((c7_avg_speed detailFast).2 (10 / 3) rfl (by norm_num)).1⟩

/-! ## Route section (lines 146–166) -/

/-- Line 146: the optional polyline under the optional map key of the
activity detail. -/
def route_poly (activity : ActivityDetail) : Option String :=
  match activity.map with
  | none => none
  | some m => m.polyline

/-- What the route block renders: either `polyline.decode` is invoked on
the present polyline string and the route is drawn, or the section is
omitted and the explicit no-route `st.info` message is shown. -/
inductive RouteSection where
  | decoded (poly : String)
  | omittedInfo
deriving DecidableEq

/-- Lines 147–166: `if route_poly:` — decode and render when a non-empty
string is present, otherwise the `st.info` no-route indicator (an empty
string is falsy in Python and also takes the `else` branch). -/
def routeSection (activity : ActivityDetail) : RouteSection :=
  match route_poly activity with
  | none => RouteSection.omittedInfo
  | some s => if s = "" then RouteSection.omittedInfo else RouteSection.decoded s

/-- C8: with no `map` key, or no polyline under it, the route section is
omitted with the explicit no-route indicator and no decoding happens;
decoding is attempted only when a polyline string is present. -/
theorem c8_route (activity : ActivityDetail) :
    (activity.map = none → routeSection activity = RouteSection.omittedInfo) ∧
    (route_poly activity = none →
      routeSection activity = RouteSection.omittedInfo) ∧
    (∀ s, routeSection activity = RouteSection.decoded s →
      route_poly activity = some s) := by
  refine ⟨?_, ?_, ?_⟩
  · intro h
    simp [routeSection, route_poly, h]
  · intro h
    simp [routeSection, h]
  · intro s hs
    unfold routeSection at hs
    cases hp : route_poly activity with
    | none => rw [hp] at hs; exact absurd hs (by simp)
    | some p =>
        rw [hp] at hs
        by_cases hp0 : p = "" <;> simp [hp0] at hs
        rw [hs]

/-- C8, witness: the no-map detail omits the route, and the detail with
polyline string abc decodes exactly that string. -/
theorem c8_route_witness :
    routeSection detailZeroSpeed = RouteSection.omittedInfo ∧
      route_poly detailFast = some "abc" :=
  ⟨(c8_route detailZeroSpeed).1 rfl,
   (c8_route detailFast).2.2 "abc" rfl⟩

/-! ## Config store and token refresh (lines 14–38) -/

/-- The config mapping read from `config.toml`. -/
structure Config where
  client_id : String
  client_secret : String
  refresh_token : String
  access_token : String
  expires_at : Option ℤ
deriving DecidableEq

inductive ConfigError where
  | fileNotFound
deriving DecidableEq

/-- `load_config` (lines 14–16): the file content is `some cfg` when the
file exists; `open` raises `FileNotFoundError` when it is absent. -/
def load_config (file : Option Config) : Except ConfigError Config :=
  match file with
  | none => Except.error ConfigError.fileNotFound
  | some cfg => Except.ok cfg

/-- A token-endpoint response body that parses as JSON and carries the
three keys the script reads. -/
structure TokenJson where
  access_token : String
  refresh_token : String
  expires_at : ℤ
deriving DecidableEq

/-- An HTTP response from the token endpoint: status code, and the parsed
body when it is valid JSON with the three token fields (`none` when
`r.json()` would raise). -/
structure HttpResponse where
  status : ℕ
  body : Option TokenJson
deriving DecidableEq

inductive RefreshError where
  | httpError (status : ℕ)
  | jsonError
deriving DecidableEq

/-- Result of a call to `refresh_token`: the value returned or the
exception raised, the in-memory config after the call, and the config
file content after the call. -/
structure RefreshState where
  result : Except RefreshError Config
  cfgAfter : Config
  fileAfter : Option Config

/-- Embedding of `refresh_token` (lines 24–38).  `r.raise_for_status()`
raises `HTTPError` exactly for status codes 400–599 (the documented
behaviour of the requests library — 3xx status codes pass it);
`r.json()` raises when the body is
not valid JSON; only after both do the three assignments and
`save_config(cfg)` run. -/
def refresh_token (cfg : Config) (file : Option Config) (resp : HttpResponse) :
    RefreshState :=
  if 400 ≤ resp.status ∧ resp.status < 600 then
    ⟨Except.error (RefreshError.httpError resp.status), cfg, file⟩
  else
    match resp.body with
    | none => ⟨Except.error RefreshError.jsonError, cfg, file⟩
    | some js =>
        let cfg2 : Config :=
          { cfg with
              access_token := js.access_token
              refresh_token := js.refresh_token
              expires_at := some js.expires_at }
        ⟨Except.ok cfg2, cfg2, some cfg2⟩

/-- A concrete stored config. -/
def cfgC10 : Config := ⟨"id123", "secret", "rt0", "at0", some 100⟩

/-- A concrete 300-status token response whose body is valid token JSON. -/
def resp300 : HttpResponse := ⟨300, some ⟨"atNew", "rtNew", 999⟩⟩

/-- The config after applying the body of `resp300`. -/
def cfgC10new : Config := ⟨"id123", "secret", "rtNew", "atNew", some 999⟩

/-- C10, counterexample: a status-300 response is not 2xx, yet
`refresh_token` does not raise — `raise_for_status` only raises for
4xx/5xx — and it mutates the config and overwrites the file. -/
theorem c10_counterexample :
    (¬ (200 ≤ resp300.status ∧ resp300.status ≤ 299)) ∧
      refresh_token cfgC10 (some cfgC10) resp300 =
        ⟨Except.ok cfgC10new, cfgC10new, some cfgC10new⟩ ∧
      cfgC10new ≠ cfgC10 := by
  refine ⟨by decide, rfl, by decide⟩

/-- C10, amended: for every response whose status is in 400–599 (the
statuses `raise_for_status` raises on; a 3xx status passes it),
`refresh_token` raises before mutating anything: the in-memory config and
the persisted file are both unchanged, and no save happens. -/
theorem c10_no_mutation_on_error (cfg : Config) (file : Option Config)
    (resp : HttpResponse) (h4 : 400 ≤ resp.status) (h6 : resp.status < 600) :
    refresh_token cfg file resp =
      ⟨Except.error (RefreshError.httpError resp.status), cfg, file⟩ := by
  simp [refresh_token, h4, h6]

/-- C10, witness for the amended theorem at a concrete 500 response. -/
theorem c10_no_mutation_on_error_witness :
    refresh_token cfgC10 (some cfgC10) ⟨500, none⟩ =
      ⟨Except.error (RefreshError.httpError 500), cfgC10, some cfgC10⟩ :=
  c10_no_mutation_on_error cfgC10 (some cfgC10) ⟨500, none⟩
    (by norm_num) (by norm_num)

/-! ## The `main` page flow (lines 68–169)

`main` is embedded as a function from explicit world inputs — the config
file content, the wall-clock time, and the responses the network would
return — to the ordered trace of Streamlit/API events plus how the run
ends: completing the page, `st.stop()`, or an uncaught exception.
-/

inductive ApiError where
  | httpError (status : ℕ)
deriving DecidableEq

/-- The world as `main` observes it. -/
structure WorldInput where
  configFile : Option Config
  now : ℚ
  tokenResp : HttpResponse
  activitiesResp : Except ApiError (List Activity)
  detailResp : Except ApiError ActivityDetail

/-- Observable events of one page run, in order. -/
inductive Event where
  | errorMsg (s : String)
  | infoMsg (s : String)
  | successMsg (s : String)
  | refreshCall
  | listCall
  | detailCall
  | ytdMetrics
  | latestMetrics
  | chartRendered
  | routeRendered
  | noRouteInfo
  | rawJsonShown
deriving DecidableEq

/-- How the page run ends. -/
inductive Outcome where
  | completed
  | stopped
  | crashed (exc : String)
deriving DecidableEq

/-- Lines 87–169: everything after the token check.  `get_activities` is
the `listCall`; an empty list stops with an info message; otherwise the
script filters to runs and evaluates `running_activities.iloc[0]`, which
raises `IndexError` on an empty frame; `get_activity` (the `detailCall`,
line 101) is outside any try/except, so an API failure there is an
uncaught exception; then metrics, the chart, and the route section. -/
def afterAuth (w : WorldInput) : List Event × Outcome :=
  match w.activitiesResp with
  | Except.error _ =>
      ([Event.listCall, Event.errorMsg "Failed to fetch activities"],
        Outcome.stopped)
  | Except.ok activities =>
      if activities.isEmpty then
        ([Event.listCall, Event.infoMsg "No activities found."],
          Outcome.stopped)
      else
        match (runsOf activities).head? with
        | none => ([Event.listCall], Outcome.crashed "IndexError")
        | some _latest =>
            match w.detailResp with
            | Except.error _ =>
                ([Event.listCall, Event.detailCall], Outcome.crashed "HTTPError")
            | Except.ok detail =>
                ([Event.listCall, Event.detailCall, Event.ytdMetrics,
                    Event.latestMetrics, Event.chartRendered] ++
                  (match routeSection detail with
                   | RouteSection.decoded _ => [Event.routeRendered]
                   | RouteSection.omittedInfo => [Event.noRouteInfo]) ++
                  [Event.rawJsonShown], Outcome.completed)

/-- Embedding of `main` (lines 68–169).  Config load with its
`FileNotFoundError` handler, then the token check of line 78:
comparing `expires_at` (default 0) with the clock — refresh only on strict
less-than — and on refresh failure an error message and `st.stop()`. -/
def mainRun (w : WorldInput) : List Event × Outcome :=
  match load_config w.configFile with
  | Except.error _ =>
      ([Event.errorMsg "config.yml not found in workspace root."],
        Outcome.stopped)
  | Except.ok cfg0 =>
      if ((cfg0.expires_at.getD 0 : ℤ) : ℚ) < w.now then
        match (refresh_token cfg0 w.configFile w.tokenResp).result with
        | Except.error _ =>
            ([Event.refreshCall, Event.errorMsg "Token refresh failed"],
              Outcome.stopped)
        | Except.ok _cfg =>
            let rest := afterAuth w
            (Event.refreshCall :: Event.successMsg "Token refreshed" :: rest.1,
              rest.2)
      else
        afterAuth w

/-- The refresh call never appears in the post-token part of the page. -/
theorem refreshCall_not_in_afterAuth (w : WorldInput) :
    Event.refreshCall ∉ (afterAuth w).1 := by
  unfold afterAuth
  split
  · simp
  · split
    · simp
    · split
      · simp
      · split
        · simp
        · split <;> simp

/-- A config whose token expires exactly at the observed current time. -/
def cfgBoundary : Config := ⟨"id", "sec", "rt", "at", some 100⟩

/-- The world at the boundary instant `now = expires_at = 100`. -/
def worldBoundary : WorldInput :=
  ⟨some cfgBoundary, 100, ⟨200, some ⟨"a", "r", 999⟩⟩,
    Except.ok [runA, runB], Except.ok detailFast⟩

/-- C2, counterexample: with `expires_at = now` (so `expires_at ≤ now`),
the strict less-than of line 78 skips the refresh, yet the authenticated activities
call is still made — the claimed `≤` trigger condition is wrong. -/
theorem c2_counterexample :
    ((cfgBoundary.expires_at.getD 0 : ℤ) : ℚ) ≤ worldBoundary.now ∧
      Event.refreshCall ∉ (mainRun worldBoundary).1 ∧
      Event.listCall ∈ (mainRun worldBoundary).1 := by
  have heval : mainRun worldBoundary =
      ([Event.listCall, Event.detailCall, Event.ytdMetrics,
        Event.latestMetrics, Event.chartRendered, Event.routeRendered,
        Event.rawJsonShown], Outcome.completed) := rfl
  refine ⟨by simp [cfgBoundary, worldBoundary], ?_, ?_⟩ <;> rw [heval] <;> decide

/-- C2, amended: refresh is invoked exactly when `expires_at` (default 0
when absent) is strictly less than the current time, and then it is the
very first action of the page, before any authenticated API call; for
`expires_at ≥ now` the refresh path is not invoked at all. -/
theorem c2_refresh_policy (w : WorldInput) (cfg : Config)
    (h : w.configFile = some cfg) :
    (((cfg.expires_at.getD 0 : ℤ) : ℚ) < w.now →
      (mainRun w).1.head? = some Event.refreshCall) ∧
    (¬ (((cfg.expires_at.getD 0 : ℤ) : ℚ) < w.now) →
      Event.refreshCall ∉ (mainRun w).1) := by
  unfold mainRun
  rw [h]
  simp only [load_config]
  constructor
  · intro hlt
    rw [if_pos hlt]
    rcases hr : (refresh_token cfg (some cfg) w.tokenResp).result with e | c <;>
      simp [hr]
  · intro hge
    rw [if_neg hge]
    exact refreshCall_not_in_afterAuth w

/-- A config already expired at the observed time. -/
def cfgExpired : Config := ⟨"id", "sec", "rt", "at", some 10⟩

/-- The world seen with the expired config at `now = 50`. -/
def worldExpired : WorldInput :=
  ⟨some cfgExpired, 50, ⟨200, some ⟨"a", "r", 999⟩⟩,
    Except.ok [runA], Except.ok detailFast⟩

/-- C2, witness: with the expired config the refresh call heads the
trace. -/
theorem c2_refresh_policy_witness :
    (mainRun worldExpired).1.head? = some Event.refreshCall :=
  (c2_refresh_policy worldExpired cfgExpired rfl).1
    (by norm_num [cfgExpired, worldExpired])

/-- A config still valid at the observed time `now = 50`. -/
def cfgFresh : Config := ⟨"id", "sec", "rt", "at", some 1000⟩

/-- The world returning one non-empty activity list with no "Run" in it. -/
def worldNoRuns : WorldInput :=
  ⟨some cfgFresh, 50, ⟨200, some ⟨"a", "r", 999⟩⟩,
    Except.ok [rideC], Except.ok detailFast⟩

/-- C3, code-bug evidence: on a non-empty activity list with no "Run"
activity, `running_activities.iloc[0]` (line 100) raises `IndexError`
and the page crashes before any aggregate run statistic is rendered —
even though the aggregate functions themselves would degrade gracefully
(distance sum 0, mean speed unavailable), as the claim expects. -/
theorem c3_no_runs_crash :
    mainRun worldNoRuns = ([Event.listCall], Outcome.crashed "IndexError") ∧
      running_distance_year_km [rideC] = 0 ∧
      running_speed_mean [rideC] = none := by
  refine ⟨rfl, ?_, rfl⟩
  simp [running_distance_year_km, runsOf, rideC]

/-- C9: with the config file absent, `load_config` fails with the
not-found error, and `main` renders exactly one visible error message and
halts the render — no crash and no fragmentary dashboard, whatever the
rest of the world would have returned. -/
theorem c9_config_missing (now : ℚ) (tokenResp : HttpResponse)
    (activitiesResp : Except ApiError (List Activity))
    (detailResp : Except ApiError ActivityDetail) :
    load_config none = Except.error ConfigError.fileNotFound ∧
      mainRun ⟨none, now, tokenResp, activitiesResp, detailResp⟩ =
        ([Event.errorMsg "config.yml not found in workspace root."],
          Outcome.stopped) :=
  ⟨rfl, rfl⟩

end StravaApp
